import Mathlib

/-!
Shallow embedding of `packages/language-server/src/plugins/typescript/features/
CompletionProvider.ts` (the completion provider of the svelte language server).

Positions, offsets and line/character values are JavaScript numbers in the
source; they are modelled as `Int`.  External collaborators (the document/text
model, the TypeScript language service, the position mapper, the component
metadata provider, configuration) are modelled as records of oracle functions
(`Document`, `Snapshot`, `Env`, `Utils`, `Config`); every piece of logic that
lives in `CompletionProvider.ts` itself is translated faithfully.
-/

namespace SvelteLS

/-- LSP position: `(line, character)`, both JS numbers. -/
structure Position where
  line : Int
  character : Int
deriving DecidableEq, Repr

/-- LSP range; `stop` is the `end` field of the source (a Lean keyword). -/
structure Range where
  start : Position
  stop : Position
deriving DecidableEq, Repr

/-- `ts.TextSpan`: a generated-document offset span. -/
structure TextSpan where
  start : Int
  length : Int
deriving DecidableEq, Repr

/-- LSP text edit. -/
structure TextEdit where
  range : Range
  newText : String
deriving DecidableEq, Repr

/-- The word range computed by `getWordRangeAt` (offsets; `stop` is `end`). -/
structure WordRange where
  start : Int
  stop : Int
deriving DecidableEq, Repr

/-- `ts.CompletionEntry`, restricted to the fields this provider reads.
`kind` is the string value of `ts.ScriptElementKind`. -/
structure CompletionEntry where
  name : String
  kind : String
  kindModifiers : Option String := none
  source : Option String := none
  insertText : Option String := none
  sortText : String := ""
  isRecommended : Option Bool := none
  replacementSpan : Option TextSpan := none
deriving DecidableEq, Repr

/-- The resolution payload attached as `data` (raw entry + uri + position). -/
structure EntryData where
  entry : CompletionEntry
  uri : String
  position : Position
deriving DecidableEq, Repr

/-- LSP completion item, restricted to the fields this provider writes.
`documentation`, when present, is markdown (`MarkupKind.Markdown`). -/
structure CompletionItem where
  label : String
  insertText : Option String := none
  kind : Option Int := none
  commitCharacters : Option (List String) := none
  sortText : Option String := none
  preselect : Option Bool := none
  detail : Option String := none
  documentation : Option String := none
  textEdit : Option TextEdit := none
  additionalTextEdits : Option (List TextEdit) := none
  data : Option EntryData := none
deriving DecidableEq, Repr

/-- LSP completion list. -/
structure CompletionList where
  isIncomplete : Bool
  items : List CompletionItem
deriving DecidableEq, Repr

/-- `CompletionList.create(items, isIncomplete)`. -/
def CompletionList.create (items : List CompletionItem) (isIncomplete : Bool) :
    CompletionList :=
  { isIncomplete := isIncomplete, items := items }

/-- The single-slot cache entry (`LastCompletion` in the source). -/
structure LastCompletion where
  key : String
  position : Position
  completionList : Option CompletionList
deriving DecidableEq, Repr

/-- The provider's only mutable state: `this.lastCompletion`. -/
structure State where
  lastCompletion : Option LastCompletion
deriving DecidableEq, Repr

/-- LSP completion context (`triggerKind` is the numeric enum). -/
structure CompletionContext where
  triggerKind : Option Int := none
  triggerCharacter : Option String := none
deriving DecidableEq, Repr

/-- A node of the svelte AST as read by the provider (`svelteNodeAt`):
its `type` and its parent's `type`. -/
structure SvelteNode where
  type : String
  parentType : Option String := none
deriving DecidableEq, Repr

/-- `AttributeContext` (from `parseHtml`), restricted to the read field. -/
structure AttributeContext where
  inValue : Bool
deriving DecidableEq, Repr

/-- One event/slot-let/prop record (`ComponentPartInfo[0]`). -/
structure PartInfo where
  name : String
  type : String
  doc : Option String := none
deriving DecidableEq, Repr

/-- The component metadata provider (`ComponentInfoProvider`): declared
events, slot-lets and props. -/
structure ComponentInfo where
  events : List PartInfo
  slotLets : List PartInfo
  props : List PartInfo
deriving DecidableEq, Repr

/-- A script tag region (`scriptInfo` / `moduleScriptInfo`): its content
start offset is the only field this provider reads. -/
structure TagInfo where
  start : Int
deriving DecidableEq, Repr

/-- `ts.TextChange` of a code action. -/
structure TextChange where
  span : TextSpan
  newText : String
deriving DecidableEq, Repr

/-- The original `Document` together with the external html/tag and text
helpers the provider calls on it.  All functions are oracles for external
collaborators (`lib/documents`, `parseHtml`, `typescript/utils`):
`inStyleTag p` is `isInTag(p, document.styleInfo)`; `inStartTag off` is
`!!getNodeIfIsInStartTag(document.html, off)`; `inHTMLStartTag off` is
`!!getNodeIfIsInHTMLStartTag(document.html, off)`;
`isPartOfImportStatementAt` is `isPartOfImportStatement(getText(), ·)`;
`wordRangeAt off` is `getWordRangeAt(getText(), off, ...)`;
`toRange a b` is `toRange(getText(), a, b)`; `existingImports` is the
result of `getExistingImports` (the `scriptImportRegex` scan of the text,
performed by the external `getRegExpMatches` helper); `inScriptTag` /
`inModuleScriptTag` are `isInTag(·, scriptInfo)` / `isInTag(·, moduleScriptInfo)`;
`isInScriptAt` is `isInScript(·, document)`. -/
structure Document where
  filePath : Option String
  text : String
  offsetAt : Position → Int
  positionAt : Int → Position
  inStyleTag : Position → Bool
  inStartTag : Int → Bool
  inHTMLStartTag : Int → Bool
  isPartOfImportStatementAt : Position → Bool
  wordRangeAt : Int → WordRange
  toRange : Int → Int → Range
  existingImports : List String
  inScriptTag : Position → Bool
  inModuleScriptTag : Position → Bool
  isInScriptAt : Position → Bool

/-- The `SvelteDocumentSnapshot` with its mapper, again as oracles:
`convertRange` is `convertRange(snapshot, ·)`; `mapRangeToOriginal` and
`mapCompletionItemToOriginal` are the sourcemap translators;
`hasComponentImportFor name` is the regex test of
`isExistingSvelteComponentImport` against `getFullText()`;
`isInScriptAt` is `isInScript(·, snapshot)`. -/
structure Snapshot where
  filePath : Option String
  parserError : Bool
  isInGenerated : Position → Bool
  getGeneratedPosition : Position → Position
  offsetAt : Position → Int
  positionAt : Int → Position
  svelteNodeAt : Int → Option SvelteNode
  convertRange : TextSpan → Range
  mapRangeToOriginal : Range → Range
  mapCompletionItemToOriginal : CompletionItem → CompletionItem
  hasComponentImportFor : String → Bool
  isInScriptAt : Position → Bool
  scriptInfo : Option TagInfo
  moduleScriptInfo : Option TagInfo

/-- The per-request external services: the TypeScript language service
query (`lang.getCompletionsAtPosition`, as a function of the generated
offset and the validated trigger character), `getComponentAtPosition`,
`getAttributeContextAtPosition`, `getJsDocTemplateCompletion`, and the
program/syntax-tree part of `jsxTransformationPropStringLiteralCompletion`
(everything below its `componentInfo`/config guard). -/
structure Env where
  getCompletionsAtPosition : Int → Option String → Option (List CompletionEntry)
  getComponentAtPosition : Position → Option ComponentInfo
  getAttributeContextAtPosition : Position → Option AttributeContext
  getJsDocTemplateCompletion : Int → Option CompletionList
  jsxPropFallback : ComponentInfo → Int → Option (List CompletionEntry)

/-- The external pure utilities imported from `../utils`. -/
structure Utils where
  changeSvelteComponentName : String → String
  scriptElementKindToCompletionItemKind : String → Int
  getCommitCharactersForScriptElement : String → Option (List String)
  pathToUrl : String → String

/-- Configuration (`configManager.getConfig().svelte`). -/
structure Config where
  useNewTransformation : Bool
  defaultScriptLanguage : String

/- ------------------------------------------------------------------ -/
/- JavaScript string primitives, modelled over the character list.     -/
/- ------------------------------------------------------------------ -/

/-- First `n` characters of `s` (clamped), as JS `substring(0, n)`. -/
def strTake (s : String) (n : Nat) : String :=
  String.mk (s.toList.take n)

/-- All but the first `n` characters of `s` (clamped), as JS `substring(n)`. -/
def strDrop (s : String) (n : Nat) : String :=
  String.mk (s.toList.drop n)

/-- JS `s.substring(a, b)`: negative arguments clamp to `0`, arguments above
the length clamp to the length, and the bounds are swapped when reversed. -/
def jsSubstring (s : String) (a b : Int) : String :=
  let n : Int := (s.length : Int)
  let a1 := min (max a 0) n
  let b1 := min (max b 0) n
  let lo := min a1 b1
  let hi := max a1 b1
  strTake (strDrop s lo.toNat) (hi - lo).toNat

/-- JS `s.startsWith(t)`. -/
def jsStartsWith (s t : String) : Bool :=
  t.toList.isPrefixOf s.toList

/-- JS `s.endsWith(t)`. -/
def jsEndsWith (s t : String) : Bool :=
  t.toList.isSuffixOf s.toList

/-- Replace the first occurrence of `pat` in a character list (JS
`String.prototype.replace` with a string pattern replaces only the first
occurrence). -/
def replaceFirstList (pat rep : List Char) : List Char → List Char
  | [] => []
  | c :: rest =>
    if pat.isPrefixOf (c :: rest) then rep ++ (c :: rest).drop pat.length
    else c :: replaceFirstList pat rep rest

/-- JS `s.replace(pat, rep)` for a (non-regex, non-empty) string pattern. -/
def jsReplaceFirst (s pat rep : String) : String :=
  String.mk (replaceFirstList pat.toList rep.toList s.toList)

theorem strTake_append_strDrop (s : String) (n : Nat) :
    strTake s n ++ strDrop s n = s := by
  cases s with
  | mk data => exact congrArg String.mk (List.take_append_drop n data)

/- ------------------------------------------------------------------ -/
/- Constants of the source file.                                       -/
/- ------------------------------------------------------------------ -/

/-- `CompletionTriggerKind.TriggerCharacter`. -/
def triggerKindTriggerCharacter : Int := 2

/-- `CompletionTriggerKind.TriggerForIncompleteCompletions`. -/
def triggerKindTriggerForIncompleteCompletions : Int := 3

/-- `ts.ScriptElementKind.memberVariableElement`. -/
def memberVariableElementKind : String := "property"

/-- `ts.ScriptElementKind.scriptElement`. -/
def scriptElementKind : String := "script"

/-- `ts.ScriptElementKind.jsxAttribute`. -/
def jsxAttributeKind : String := "JSX attribute"

/-- `CompletionItemKind.Field`. -/
def completionItemKindField : Int := 5

/-- `this.validTriggerCharacters`. -/
def validTriggerCharacters : List String :=
  [".", "\"", "\x27", "`", "/", "@", "<", "#"]

/-- `svelte2tsxTypes`: shim type names that must never surface. -/
def svelte2tsxTypes : List String :=
  ["Svelte2TsxComponent",
   "Svelte2TsxComponentConstructorParameters",
   "SvelteComponentConstructor",
   "SvelteActionReturnType",
   "SvelteTransitionConfig",
   "SvelteTransitionReturnType",
   "SvelteAnimationReturnType",
   "SvelteWithOptionalProps",
   "SvelteAllProps",
   "SveltePropsAnyFallback",
   "SvelteSlotsAnyFallback",
   "SvelteRestProps",
   "SvelteSlots",
   "SvelteStore"]

/-- `beginOfDocumentRange`. -/
def beginOfDocumentRange : Range :=
  { start := { line := 0, character := 0 }, stop := { line := 0, character := 0 } }

/- ------------------------------------------------------------------ -/
/- The provider's functions.                                           -/
/- ------------------------------------------------------------------ -/

/-- `this.isValidTriggerCharacter(character)`. -/
def isValidTriggerCharacter (character : Option String) : Bool :=
  match character with
  | some c => validTriggerCharacters.contains c
  | none => false

/-- `completionContext?.triggerCharacter`. -/
def ctxTriggerCharacter (completionContext : Option CompletionContext) :
    Option String :=
  completionContext.bind (·.triggerCharacter)

/-- `completionContext?.triggerKind`. -/
def ctxTriggerKind (completionContext : Option CompletionContext) : Option Int :=
  completionContext.bind (·.triggerKind)

/-- The early-return condition of `getCompletions` lines 110-117: a custom
trigger character that is neither ts-valid nor the jsdoc nor the
event/slot-let trigger. -/
def triggerGateRejects (completionContext : Option CompletionContext) : Bool :=
  let triggerCharacter := ctxTriggerCharacter completionContext
  (ctxTriggerKind completionContext == some triggerKindTriggerCharacter) &&
    !(isValidTriggerCharacter triggerCharacter) &&
    !(triggerCharacter == some "*") &&
    !(triggerCharacter == some ":")

/-- `this.canReuseLastCompletion(...)` (source lines 265-287). -/
def canReuseLastCompletion (lastCompletion : Option LastCompletion)
    (triggerKind : Option Int) (triggerCharacter : Option String)
    (document : Document) (position : Position) : Bool :=
  match lastCompletion with
  | none => false
  | some lc =>
    (match document.filePath with
     | some fp => lc.key == fp
     | none => false) &&
    (lc.position.line == position.line) &&
    ((decide ((lc.position.character - position.character).natAbs < 2) &&
        ((triggerKind == some triggerKindTriggerForIncompleteCompletions) ||
         ((triggerCharacter == some ".") &&
            document.isPartOfImportStatementAt position))) ||
     (decide ((lc.position.character - position.character).natAbs < 4) &&
        (triggerCharacter == some ":") &&
        document.inStartTag (document.offsetAt position)))

/-- `this.isSvelteComponentImport(className)`. -/
def isSvelteComponentImport (className : String) : Bool :=
  jsEndsWith className "__SvelteComponent_"

/-- `this.isExistingSvelteComponentImport(snapshot, name, source)`:
`!!source && !!snapshot.getFullText().match(importStatement)` (the regex
match is the snapshot oracle `hasComponentImportFor`; `''` is falsy). -/
def isExistingSvelteComponentImport (snapshot : Snapshot) (name : String)
    (source : Option String) : Bool :=
  (match source with
   | some s => !(s == "")
   | none => false) &&
  snapshot.hasComponentImportFor name

/-- `this.componentInfoToCompletionEntry(info, prefix, kind, doc, wordRange)`.
`info.doc && \x7b...markdown...\x7d` is falsy for `undefined` and `''`. -/
def componentInfoToCompletionEntry (info : PartInfo) (pfx : String)
    (kind : Option Int) (doc : Document) (wordRange : WordRange) :
    CompletionItem :=
  let name := pfx ++ info.name
  { label := name
    kind := kind
    sortText := some "-1"
    detail := some (info.name ++ ": " ++ info.type)
    documentation :=
      match info.doc with
      | some s => if s == "" then none else some s
      | none => none
    textEdit :=
      if !(wordRange.start == wordRange.stop) then
        some { range := doc.toRange wordRange.start wordRange.stop, newText := name }
      else none }

/-- `this.getEventAndSlotLetCompletions(componentInfo, document,
attributeContext, wordRange)` (source lines 297-335). -/
def getEventAndSlotLetCompletions (componentInfo : Option ComponentInfo)
    (document : Document) (attributeContext : Option AttributeContext)
    (wordRange : WordRange) : List CompletionItem :=
  match componentInfo with
  | none => []
  | some ci =>
    if (match attributeContext with
        | some ac => ac.inValue
        | none => false) then []
    else
      ci.events.map
        (fun event => componentInfoToCompletionEntry event "on:" none document wordRange) ++
      ci.slotLets.map
        (fun slot => componentInfoToCompletionEntry slot "let:" none document wordRange)

/-- The result record of `getCompletionLabelAndInsert`. -/
structure LabelAndInsert where
  label : String
  insertText : Option String := none
  isSvelteComp : Bool
  replacementSpan : Option TextSpan := none
deriving DecidableEq, Repr

/-- `this.getCompletionLabelAndInsert(snapshot, comp)` (source lines 400-439).
`insertText ? changeSvelteComponentName(insertText) : undefined` is falsy
for `''`. -/
def getCompletionLabelAndInsert (utils : Utils) (snapshot : Snapshot)
    (comp : CompletionEntry) : Option LabelAndInsert :=
  let isScriptElement := comp.kind == scriptElementKind
  let hasModifier :=
    match comp.kindModifiers with
    | some s => !(s == "")
    | none => false
  let isSvelteComp := isSvelteComponentImport comp.name
  let name :=
    if isSvelteComp then utils.changeSvelteComponentName comp.name else comp.name
  if isSvelteComp && isExistingSvelteComponentImport snapshot name comp.source then
    none
  else if isScriptElement && hasModifier then
    let label :=
      match comp.kindModifiers with
      | some km => if !(km == "") && !(jsEndsWith name km) then name ++ km else name
      | none => name
    some { label := label, insertText := some name, isSvelteComp := isSvelteComp }
  else
    match comp.replacementSpan with
    | some span =>
      some { label := name
             isSvelteComp := isSvelteComp
             insertText :=
               match comp.insertText with
               | some s => if s == "" then none else some (utils.changeSvelteComponentName s)
               | none => none
             replacementSpan := some span }
    | none => some { label := name, isSvelteComp := isSvelteComp }

/-- `this.toCompletionItem(snapshot, comp, uri, position, existingImports)`
(source lines 359-398). -/
def toCompletionItem (utils : Utils) (snapshot : Snapshot)
    (comp : CompletionEntry) (uri : String) (position : Position)
    (existingImports : List String) : Option CompletionItem :=
  match getCompletionLabelAndInsert utils snapshot comp with
  | none => none
  | some r =>
    if r.isSvelteComp && existingImports.contains r.label then none
    else
      some { label := r.label
             insertText := r.insertText
             kind := some (utils.scriptElementKindToCompletionItemKind comp.kind)
             commitCharacters := utils.getCommitCharactersForScriptElement comp.kind
             sortText := if r.isSvelteComp then some "-1" else some comp.sortText
             preselect := if r.isSvelteComp then some true else comp.isRecommended
             textEdit :=
               match r.replacementSpan with
               | some span =>
                 some { range := snapshot.convertRange span
                        newText := r.insertText.getD r.label }
               | none => none
             data := some { entry := comp, uri := uri, position := position } }

/-- `this.fixTextEditRange(wordRangePosition, completionItem)` (source lines
455-493).  The guard keeps the source's self-comparison
`wordRangePosition.line !== wordRangePosition.line` verbatim. -/
def fixTextEditRange (wordRangePosition : Position)
    (completionItem : CompletionItem) : CompletionItem :=
  match completionItem.textEdit with
  | none => completionItem
  | some textEdit =>
    let newText := textEdit.newText
    let start := textEdit.range.start
    let wordRangeStartCharacter := wordRangePosition.character
    if !(wordRangePosition.line == wordRangePosition.line) ||
       decide (start.character > wordRangePosition.character) then
      completionItem
    else
      { completionItem with
        textEdit := some
          { newText := strDrop newText (wordRangeStartCharacter - start.character).toNat
            range :=
              { start := { line := start.line, character := wordRangeStartCharacter }
                stop := textEdit.range.stop } }
        additionalTextEdits := some
          [{ range :=
               { start := start
                 stop := { line := start.line, character := wordRangeStartCharacter } }
             newText := strTake newText (wordRangeStartCharacter - start.character).toNat }] }

/-- `isNoSvelte2tsxCompletion` (inside `isValidCompletion`). -/
def isNoSvelte2tsxCompletion (value : CompletionEntry) : Bool :=
  !(value.kindModifiers == some "declare") ||
  (!(jsStartsWith value.name "__sveltets_") && !(svelte2tsxTypes.contains value.name))

/-- `isValidCompletion(document, position)` applied to one entry
(source lines 786-810). -/
def isValidCompletion (document : Document) (position : Position)
    (value : CompletionEntry) : Bool :=
  if document.inHTMLStartTag (document.offsetAt position) then
    !(value.kind == jsxAttributeKind) && isNoSvelte2tsxCompletion value
  else isNoSvelte2tsxCompletion value

/-- `this.jsxTransformationPropStringLiteralCompletion(lang, componentInfo,
position, tsDoc)` (source lines 715-756): the `componentInfo`/config guard
is explicit; the program/source-file/jsx-attribute lookup and the prop
mapping are the oracle `env.jsxPropFallback`. -/
def jsxTransformationPropStringLiteralCompletion (env : Env) (cfg : Config)
    (componentInfo : Option ComponentInfo) (position : Int) :
    Option (List CompletionEntry) :=
  match componentInfo with
  | none => none
  | some ci =>
    if cfg.useNewTransformation then none
    else env.jsxPropFallback ci position

/-- `componentInfo && getAttributeContextAtPosition(document, position)`. -/
def attributeContextAt (env : Env) (position : Position) :
    Option AttributeContext :=
  match env.getComponentAtPosition position with
  | some _ => env.getAttributeContextAtPosition position
  | none => none

/-- `svelteNode`-based early return of `getCompletions` (source lines
145-156): cursor in regular HTML text, or at `>|</`. -/
def inTextContent (svelteNode : Option SvelteNode) (text : String)
    (originalOffset : Int) : Bool :=
  (match svelteNode with
   | some n =>
     (n.type == "Text") &&
     (match n.parentType with
      | some p => ["Element", "InlineComponent", "Fragment", "SlotTemplate"].contains p
      | none => false)
   | none => false) ||
  (jsSubstring text (originalOffset - 1) (originalOffset + 2) == "></")

/-- The `> 500` narrowing branch's prop list (source lines 221-234):
`(!attributeContext?.inValue && componentInfo?.getProps().map(...)) || []`. -/
def narrowToProps (componentInfo : Option ComponentInfo)
    (attributeContext : Option AttributeContext) (document : Document)
    (wordRange : WordRange) : List CompletionItem :=
  if (match attributeContext with
      | some ac => ac.inValue
      | none => false) then []
  else
    match componentInfo with
    | some ci =>
      ci.props.map (fun entry =>
        componentInfoToCompletionEntry entry "" (some completionItemKindField)
          document wordRange)
    | none => []

/-- `getCompletions` from the point where the cache was missed and cleared
(source lines 134-263).  `filePath` is the non-null `tsDoc.filePath`. -/
def getCompletionsFresh (env : Env) (cfg : Config) (utils : Utils)
    (document : Document) (tsDoc : Snapshot) (filePath : String)
    (position : Position) (completionContext : Option CompletionContext)
    (cancelled : Bool) : Option CompletionList × State :=
  let cleared : State := { lastCompletion := none }
  let triggerCharacter := ctxTriggerCharacter completionContext
  let validTriggerCharacter :=
    if isValidTriggerCharacter triggerCharacter then triggerCharacter else none
  if !(tsDoc.isInGenerated position) then (none, cleared)
  else
    let originalOffset := document.offsetAt position
    let offset := tsDoc.offsetAt (tsDoc.getGeneratedPosition position)
    if triggerCharacter == some "*" then
      (env.getJsDocTemplateCompletion offset, cleared)
    else
      let svelteNode := tsDoc.svelteNodeAt originalOffset
      if inTextContent svelteNode document.text originalOffset then (none, cleared)
      else if cancelled then (none, cleared)
      else
        let wordRange := document.wordRangeAt originalOffset
        let componentInfo := env.getComponentAtPosition position
        let attributeContext := attributeContextAt env position
        let eventAndSlotLetCompletions :=
          getEventAndSlotLetCompletions componentInfo document attributeContext wordRange
        if triggerCharacter == some ":" then
          (some (CompletionList.create eventAndSlotLetCompletions tsDoc.parserError),
           cleared)
        else if cancelled then (none, cleared)
        else
          let completions0 :=
            (env.getCompletionsAtPosition offset validTriggerCharacter).getD []
          let completions :=
            if completions0.isEmpty then
              (jsxTransformationPropStringLiteralCompletion env cfg componentInfo
                offset).getD []
            else completions0
          if (completions.length == 0) && (eventAndSlotLetCompletions.length == 0) then
            ((if tsDoc.parserError then some (CompletionList.create [] true) else none),
             cleared)
          else if decide (completions.length > 500) &&
              (match svelteNode with
               | some n => n.type == "Element"
               | none => false) &&
              (match completions with
               | c :: _ => !(c.kind == memberVariableElementKind)
               | [] => false) then
            -- False global completions inside element start tag
            (none, cleared)
          else if decide (completions.length > 500) &&
              (match svelteNode with
               | some n => n.type == "InlineComponent"
               | none => false) &&
              (["  ", " >", " /"].contains
                (jsSubstring document.text (originalOffset - 1) (originalOffset + 1))) then
            -- Very likely false global completions inside component start tag
            (some (CompletionList.create
              (eventAndSlotLetCompletions ++
                narrowToProps componentInfo attributeContext document wordRange)
              tsDoc.parserError),
             cleared)
          else
            let existingImports := document.existingImports
            let wordRangeStartPosition := document.positionAt wordRange.start
            let completionItems :=
              ((((completions.filter (isValidCompletion document position)).filterMap
                    (fun comp =>
                      toCompletionItem utils tsDoc comp (utils.pathToUrl filePath)
                        position existingImports)).map
                  tsDoc.mapCompletionItemToOriginal).map
                (fun comp => fixTextEditRange wordRangeStartPosition comp)) ++
              eventAndSlotLetCompletions
            let completionList :=
              CompletionList.create completionItems tsDoc.parserError
            (some completionList,
             { lastCompletion := some
                 { key := document.filePath.getD ""
                   position := position
                   completionList := some completionList } })

/-- `this.getCompletions(document, position, completionContext,
cancellationToken)` (source lines 79-263), returning the result together
with the new provider state.  The inner `none` branch of the cache test is
unreachable because `canReuseLastCompletion none ... = false`. -/
def getCompletions (env : Env) (cfg : Config) (utils : Utils)
    (document : Document) (tsDoc : Snapshot) (self : State)
    (position : Position) (completionContext : Option CompletionContext)
    (cancelled : Bool) : Option CompletionList × State :=
  if document.inStyleTag position then (none, self)
  else
    match tsDoc.filePath with
    | none => (none, self)
    | some filePath =>
      if triggerGateRejects completionContext then (none, self)
      else
        if canReuseLastCompletion self.lastCompletion
            (ctxTriggerKind completionContext) (ctxTriggerCharacter completionContext)
            document position then
          match self.lastCompletion with
          | some lc =>
            (lc.completionList, { lastCompletion := some { lc with position := position } })
          | none => (none, { lastCompletion := none })
        else
          getCompletionsFresh env cfg utils document tsDoc filePath position
            completionContext cancelled

/-- `this.changeComponentImport(importText, actionTriggeredInScript)`
(source lines 704-713). -/
def changeComponentImport (csc : String → String) (importText : String)
    (actionTriggeredInScript : Bool) : String :=
  let changedName := csc importText
  if !(importText == changedName) || !actionTriggeredInScript then
    jsReplaceFirst changedName " type " " "
  else importText

/-- `offsetLinesAndMovetoStartOfLine(range, offsetLines)`. -/
def offsetLinesAndMovetoStartOfLine (r : Range) (offsetLines : Int) : Range :=
  { start := { line := r.start.line + offsetLines, character := 0 }
    stop := { line := r.stop.line + offsetLines, character := 0 } }

/-- `this.mapRangeForNewImport(snapshot, virtualRange)`. -/
def mapRangeForNewImport (snapshot : Snapshot) (virtualRange : Range) : Range :=
  offsetLinesAndMovetoStartOfLine
    (snapshot.mapRangeToOriginal (offsetLinesAndMovetoStartOfLine virtualRange (-1))) 1

/-- `convertRange(document, span)` from `../utils`: a span converted through
the document's `positionAt`.  Modelled from the spec: the external
`convertRange` helper (not under `src/`) builds the range of
`positionAt(start)` and `positionAt(start + length)`. -/
def convertRangeDoc (doc : Document) (span : TextSpan) : Range :=
  { start := doc.positionAt span.start
    stop := doc.positionAt (span.start + span.length) }

/-- JS `a?.start || b` for an optional tag info (`0` is falsy). -/
def jsOrStart (a : Option TagInfo) (b : Int) : Int :=
  match a with
  | some t => if t.start == 0 then b else t.start
  | none => b

/-- `this.codeActionChangeToTextEdit(doc, snapshot, change, isImport,
originalTriggerPosition)` (source lines 617-685).  `newLine` is
`ts.sys.newLine`. -/
def codeActionChangeToTextEdit (cfg : Config) (utils : Utils) (newLine : String)
    (doc : Document) (snapshot : Snapshot) (change : TextChange)
    (isImport : Bool) (originalTriggerPosition : Position) : TextEdit :=
  let newText0 :=
    changeComponentImport utils.changeSvelteComponentName change.newText
      (doc.isInScriptAt originalTriggerPosition)
  let scriptTagInfoOpt :=
    match snapshot.scriptInfo with
    | some si => some si
    | none => snapshot.moduleScriptInfo
  match scriptTagInfoOpt with
  | none =>
    -- no script tag defined yet, add it.
    let lang := cfg.defaultScriptLanguage
    let scriptLang := if lang == "none" then "" else " lang=\"" ++ lang ++ "\""
    { range := beginOfDocumentRange
      newText :=
        "<script" ++ scriptLang ++ ">" ++ newLine ++ newText0 ++ "</script>" ++ newLine }
  | some scriptTagInfo =>
    let span := change.span
    let virtualRange := snapshot.convertRange span
    let isNewImport := isImport && (virtualRange.start.character == 0)
    let range0 :=
      if isNewImport && decide (virtualRange.start.line > 1) then
        mapRangeForNewImport snapshot virtualRange
      else snapshot.mapRangeToOriginal virtualRange
    let range1 :=
      if (range0.start.line == (-1 : Int)) ||
         ((range0.start.line == 0) && decide (range0.start.character ≤ 1) &&
           (span.length == 0)) ||
         !(snapshot.isInScriptAt range0.start) then
        convertRangeDoc doc
          { start :=
              if doc.inScriptTag originalTriggerPosition then
                jsOrStart snapshot.scriptInfo scriptTagInfo.start
              else if doc.inModuleScriptTag originalTriggerPosition then
                jsOrStart snapshot.moduleScriptInfo scriptTagInfo.start
              else scriptTagInfo.start
            length := span.length }
      else range0
    let editOffset := doc.offsetAt range1.start
    let newText1 :=
      if ((match snapshot.scriptInfo with
           | some si => editOffset == si.start
           | none => false) ||
          (match snapshot.moduleScriptInfo with
           | some msi => editOffset == msi.start
           | none => false)) &&
         !(jsStartsWith newText0 "\r\n") && !(jsStartsWith newText0 "\n") then
        newLine ++ newText0
      else newText0
    { range := range1, newText := newText1 }

/- ------------------------------------------------------------------ -/
/- Concrete collaborators used to instantiate the theorems below.      -/
/- ------------------------------------------------------------------ -/

/-- Modelled from the spec: the external `changeSvelteComponentName`
utility (from `../utils`, not under `src/`) rewrites a compiled-component
placeholder name, detected by the fixed suffix marker
`__SvelteComponent_`, to the user-facing component name. -/
def changeSvelteComponentNameModel (s : String) : String :=
  if jsEndsWith s "__SvelteComponent_" then strTake s (s.length - 18) else s

/-- A minimal concrete document. -/
def fixDoc : Document :=
  { filePath := some "a.svelte"
    text := ""
    offsetAt := fun _ => 0
    positionAt := fun _ => { line := 0, character := 0 }
    inStyleTag := fun _ => false
    inStartTag := fun _ => false
    inHTMLStartTag := fun _ => false
    isPartOfImportStatementAt := fun _ => false
    wordRangeAt := fun _ => { start := 0, stop := 0 }
    toRange := fun _ _ => beginOfDocumentRange
    existingImports := []
    inScriptTag := fun _ => false
    inModuleScriptTag := fun _ => false
    isInScriptAt := fun _ => false }

/-- A minimal concrete snapshot whose mapper is the identity. -/
def fixSnap : Snapshot :=
  { filePath := some "a.svelte"
    parserError := false
    isInGenerated := fun _ => true
    getGeneratedPosition := fun p => p
    offsetAt := fun _ => 0
    positionAt := fun _ => { line := 0, character := 0 }
    svelteNodeAt := fun _ => none
    convertRange := fun _ => beginOfDocumentRange
    mapRangeToOriginal := fun r => r
    mapCompletionItemToOriginal := fun c => c
    hasComponentImportFor := fun _ => false
    isInScriptAt := fun _ => false
    scriptInfo := none
    moduleScriptInfo := none }

/-- A minimal concrete service environment. -/
def fixEnv : Env :=
  { getCompletionsAtPosition := fun _ _ => none
    getComponentAtPosition := fun _ => none
    getAttributeContextAtPosition := fun _ => none
    getJsDocTemplateCompletion := fun _ => none
    jsxPropFallback := fun _ _ => none }

/-- Concrete external utilities. -/
def fixUtils : Utils :=
  { changeSvelteComponentName := changeSvelteComponentNameModel
    scriptElementKindToCompletionItemKind := fun _ => 6
    getCommitCharactersForScriptElement := fun _ => none
    pathToUrl := fun s => s }

/-- Concrete configuration. -/
def fixCfg : Config := { useNewTransformation := true, defaultScriptLanguage := "none" }

/-- A cached completion list and cache slot for the cache theorems. -/
def fixList : CompletionList := { isIncomplete := false, items := [] }

/-- A cache entry keyed to `fixDoc`. -/
def fixLC : LastCompletion :=
  { key := "a.svelte", position := { line := 0, character := 0 },
    completionList := some fixList }

/- ------------------------------------------------------------------ -/
/- C3 and C7: the text-edit range fixer.                               -/
/- ------------------------------------------------------------------ -/

/-- C3: for every completion item processed by `fixTextEditRange`, the
resulting primary text edit never starts at a character column left of the
word-range anchor column, and whenever the item had a primary edit starting
at or before the anchor column (the case where a prefix is removed), a
single additional text edit is emitted covering the original start up to
the anchor column, and concatenating the additional edit's text with the
resulting primary edit's text reconstructs the original replacement text. -/
theorem fixTextEditRange_prefix_accounted (w : Position) (item : CompletionItem) :
    (∀ te, (fixTextEditRange w item).textEdit = some te →
      w.character ≤ te.range.start.character) ∧
    (∀ te, item.textEdit = some te → te.range.start.character ≤ w.character →
      ∃ primary add,
        (fixTextEditRange w item).textEdit = some primary ∧
        (fixTextEditRange w item).additionalTextEdits = some [add] ∧
        add.range.start = te.range.start ∧
        add.range.stop = { line := te.range.start.line, character := w.character } ∧
        add.newText ++ primary.newText = te.newText) := by
  constructor
  · intro te hte
    cases h : item.textEdit with
    | none =>
      simp only [fixTextEditRange, h] at hte
      exact Option.noConfusion hte
    | some te0 =>
      simp only [fixTextEditRange, h] at hte
      split at hte
      · next hcond =>
          rw [h] at hte
          injection hte with hte
          subst hte
          simp only [beq_self_eq_true, Bool.not_true, Bool.false_or,
            decide_eq_true_eq] at hcond
          omega
      · next hcond =>
          simp only [Option.some.injEq] at hte
          subst hte
          simp
  · intro te hte hle
    have hcond : (!(w.line == w.line) ||
        decide (te.range.start.character > w.character)) = false := by
      simp only [beq_self_eq_true, Bool.not_true, Bool.false_or,
        decide_eq_false_iff_not]
      omega
    have hfix : fixTextEditRange w item =
        { item with
          textEdit := some
            { range := { start := { line := te.range.start.line, character := w.character }
                         stop := te.range.stop }
              newText := strDrop te.newText (w.character - te.range.start.character).toNat }
          additionalTextEdits := some
            [{ range := { start := te.range.start
                          stop := { line := te.range.start.line, character := w.character } }
               newText := strTake te.newText
                 (w.character - te.range.start.character).toNat }] } := by
      simp [fixTextEditRange, hte, hcond]
      intro hlt
      exact absurd hlt (not_lt.mpr hle)
    refine ⟨{ range := { start := { line := te.range.start.line, character := w.character }
                         stop := te.range.stop }
              newText := strDrop te.newText (w.character - te.range.start.character).toNat },
            { range := { start := te.range.start
                         stop := { line := te.range.start.line, character := w.character } }
              newText := strTake te.newText (w.character - te.range.start.character).toNat },
            ?_, ?_, rfl, rfl, strTake_append_strDrop _ _⟩
    · rw [hfix]
    · rw [hfix]

/-- A completion item whose edit starts two columns left of the anchor. -/
def c3Item : CompletionItem :=
  { label := "y"
    textEdit := some
      { range := { start := { line := 0, character := 0 }
                   stop := { line := 0, character := 4 } }
        newText := "abcd" } }

theorem fixTextEditRange_prefix_accounted_witness :
    ∃ primary add,
      (fixTextEditRange { line := 0, character := 2 } c3Item).textEdit =
        some primary ∧
      (fixTextEditRange { line := 0, character := 2 } c3Item).additionalTextEdits =
        some [add] ∧
      add.range.start = { line := 0, character := 0 } ∧
      add.range.stop = { line := 0, character := 2 } ∧
      add.newText ++ primary.newText = "abcd" := by
  have h := (fixTextEditRange_prefix_accounted { line := 0, character := 2 } c3Item).2
    { range := { start := { line := 0, character := 0 }
                 stop := { line := 0, character := 4 } }
      newText := "abcd" } rfl (by decide)
  simpa using h

/-- Concrete input exhibiting the `fixTextEditRange` line-comparison slip:
the item's primary edit lives on line 5 while the anchor is on line 0. -/
def c7Item : CompletionItem :=
  { label := "x"
    textEdit := some
      { range := { start := { line := 5, character := 1 }
                   stop := { line := 5, character := 4 } }
        newText := "abcd" } }

/-- C7: the claim says an edit that does not start strictly before the
anchor column on the anchor's own line is returned completely unchanged.
The code's guard compares `wordRangePosition.line` with itself (always
false), so an edit on a different line (here line 5, anchor on line 0) is
split anyway, and an additional text edit is added. -/
theorem fixTextEditRange_crossLine_split_eval :
    c7Item.textEdit = some
      { range := { start := { line := 5, character := 1 }
                   stop := { line := 5, character := 4 } }
        newText := "abcd" } ∧
    c7Item.additionalTextEdits = none ∧
    fixTextEditRange { line := 0, character := 3 } c7Item =
      { c7Item with
        textEdit := some
          { range := { start := { line := 5, character := 3 }
                       stop := { line := 5, character := 4 } }
            newText := "cd" }
        additionalTextEdits := some
          [{ range := { start := { line := 5, character := 1 }
                        stop := { line := 5, character := 3 } }
             newText := "ab" }] } ∧
    fixTextEditRange { line := 0, character := 3 } c7Item ≠ c7Item := by
  refine ⟨rfl, rfl, ?_, ?_⟩ <;> decide

/- ------------------------------------------------------------------ -/
/- C1 and C10: the completion cache.                                   -/
/- ------------------------------------------------------------------ -/

/-- C1: `canReuseLastCompletion` holds exactly when a last completion
exists whose key equals the document's file path and whose stored position
is on the same line as the new position, and either the character delta is
less than 2 and the trigger is a re-trigger for incomplete completions, or
the trigger character is `.` with the cursor inside an import statement
(also under delta < 2), or the character delta is less than 4 with trigger
character `:` and the cursor offset inside a start tag; and on such a hit
`getCompletions` returns the cached completion list unchanged, updating
only the cache's stored position to the new position. -/
theorem canReuseLastCompletion_spec (env : Env) (cfg : Config) (utils : Utils)
    (document : Document) (tsDoc : Snapshot) (last : Option LastCompletion)
    (position : Position) (completionContext : Option CompletionContext)
    (cancelled : Bool) (fp : String)
    (hstyle : document.inStyleTag position = false)
    (hfp : tsDoc.filePath = some fp)
    (hgate : triggerGateRejects completionContext = false) :
    (canReuseLastCompletion last (ctxTriggerKind completionContext)
        (ctxTriggerCharacter completionContext) document position = true ↔
      ∃ lc, last = some lc ∧
        document.filePath = some lc.key ∧
        lc.position.line = position.line ∧
        (((lc.position.character - position.character).natAbs < 2 ∧
            (ctxTriggerKind completionContext =
                some triggerKindTriggerForIncompleteCompletions ∨
             (ctxTriggerCharacter completionContext = some "." ∧
              document.isPartOfImportStatementAt position = true))) ∨
         ((lc.position.character - position.character).natAbs < 4 ∧
            ctxTriggerCharacter completionContext = some ":" ∧
            document.inStartTag (document.offsetAt position) = true))) ∧
    (∀ lc, last = some lc →
      canReuseLastCompletion last (ctxTriggerKind completionContext)
        (ctxTriggerCharacter completionContext) document position = true →
      getCompletions env cfg utils document tsDoc { lastCompletion := last }
          position completionContext cancelled =
        (lc.completionList,
         { lastCompletion := some { lc with position := position } })) := by
  constructor
  · cases last with
    | none => simp [canReuseLastCompletion]
    | some lc =>
      cases hdf : document.filePath with
      | none => simp [canReuseLastCompletion, hdf]
      | some dfp =>
        simp only [canReuseLastCompletion, hdf, Bool.and_eq_true, Bool.or_eq_true,
          beq_iff_eq, decide_eq_true_eq, Option.some.injEq, exists_eq_left']
        constructor
        · rintro ⟨⟨hk, hl⟩, hrest⟩
          exact ⟨(by first | exact hk | exact hk.symm), hl, by tauto⟩
        · rintro ⟨hk, hl, hrest⟩
          exact ⟨⟨(by first | exact hk | exact hk.symm), hl⟩, by tauto⟩
  · intro lc hlast hreuse
    subst hlast
    simp only [getCompletions, hstyle, hfp, hgate, hreuse, Bool.false_eq_true,
      if_false, if_true]

theorem canReuseLastCompletion_spec_witness :
    getCompletions fixEnv fixCfg fixUtils fixDoc fixSnap
        { lastCompletion := some fixLC } { line := 0, character := 1 }
        (some { triggerKind := some triggerKindTriggerForIncompleteCompletions })
        false =
      (some fixList,
       { lastCompletion := some { fixLC with position := { line := 0, character := 1 } } }) := by
  have h := canReuseLastCompletion_spec fixEnv fixCfg fixUtils fixDoc fixSnap
    (some fixLC) { line := 0, character := 1 }
    (some { triggerKind := some triggerKindTriggerForIncompleteCompletions })
    false "a.svelte" rfl rfl (by decide)
  exact h.2 fixLC rfl (by decide)

/-- The list sitting in the cache for the sliding-window scenario. -/
def c10List : CompletionList := { isIncomplete := false, items := [] }

/-- The initial provider state: a list computed at `(0, 0)`. -/
def c10State0 : State :=
  { lastCompletion := some
      { key := "a.svelte", position := { line := 0, character := 0 },
        completionList := some c10List } }

/-- The completion context of a re-trigger-for-incomplete request. -/
def c10Ctx : Option CompletionContext :=
  some { triggerKind := some triggerKindTriggerForIncompleteCompletions }

/-- One re-trigger-for-incomplete request at character `c` on line 0. -/
def c10Req (st : State) (c : Int) : Option CompletionList × State :=
  getCompletions fixEnv fixCfg fixUtils fixDoc fixSnap st
    { line := 0, character := c } c10Ctx false

/-- The state after serving `n` requests at characters `1, 2, ..., n`. -/
def c10Run : Nat → State
  | 0 => c10State0
  | n + 1 => (c10Req (c10Run n) ((n : Int) + 1)).2

theorem c10_step (c : Int) :
    c10Req { lastCompletion := some {
          key := "a.svelte", position := { line := 0, character := c },
          completionList := some c10List } } (c + 1) =
      (some c10List,
       { lastCompletion := some {
           key := "a.svelte", position := { line := 0, character := c + 1 },
           completionList := some c10List } }) := by
  have habs : ((c : Int) - (c + 1)).natAbs = 1 := by omega
  have hreuse : canReuseLastCompletion
      (some { key := "a.svelte", position := { line := 0, character := c },
              completionList := some c10List })
      (some triggerKindTriggerForIncompleteCompletions) none fixDoc
      { line := 0, character := c + 1 } = true := by
    simp [canReuseLastCompletion, fixDoc, habs]
  have hgate : triggerGateRejects c10Ctx = false := by decide
  simp only [c10Req, getCompletions]
  rw [show fixDoc.inStyleTag { line := 0, character := c + 1 } = false from rfl]
  rw [show fixSnap.filePath = some "a.svelte" from rfl]
  rw [hgate]
  rw [show ctxTriggerKind c10Ctx =
      some triggerKindTriggerForIncompleteCompletions from rfl]
  rw [show ctxTriggerCharacter c10Ctx = none from rfl]
  simp [hreuse]

/-- C10: the cache-reuse window is measured from the most recently served
request: each hit overwrites the stored position with the new request
position while leaving the stored list unchanged, so a chain of
re-trigger-for-incomplete requests, each one column beyond the previous,
is served the originally computed list at a position arbitrarily many
columns (`n`) away from where it was computed. -/
theorem cacheWindow_slides_with_requests :
    ∀ n : Nat,
      c10Run n =
        { lastCompletion := some
            { key := "a.svelte", position := { line := 0, character := (n : Int) },
              completionList := some c10List } } ∧
      (c10Req (c10Run n) ((n : Int) + 1)).1 = some c10List := by
  intro n
  induction n with
  | zero =>
    refine ⟨rfl, ?_⟩
    have h := c10_step 0
    simpa using congrArg Prod.fst h
  | succ k ih =>
    obtain ⟨h1, _⟩ := ih
    have hstep := c10_step (k : Int)
    have hrun : c10Run (k + 1) =
        { lastCompletion := some
            { key := "a.svelte", position := { line := 0, character := (k : Int) + 1 },
              completionList := some c10List } } := by
      show (c10Req (c10Run k) ((k : Int) + 1)).2 = _
      rw [h1, hstep]
    have hcast : ((k + 1 : Nat) : Int) = (k : Int) + 1 := by push_cast; ring
    constructor
    · rw [hrun, hcast]
    · rw [hrun, hcast]
      have hstep2 := c10_step ((k : Int) + 1)
      simpa using congrArg Prod.fst hstep2

/- ------------------------------------------------------------------ -/
/- C4: outside the generated region.                                   -/
/- ------------------------------------------------------------------ -/

/-- C4 (amended): for every completion request that does not reuse the
completion cache, if the cursor position lies outside the
compiler-generated region, `getCompletions` returns null. -/
theorem outsideGenerated_null_of_no_reuse (env : Env) (cfg : Config)
    (utils : Utils) (document : Document) (tsDoc : Snapshot) (self : State)
    (position : Position) (completionContext : Option CompletionContext)
    (cancelled : Bool)
    (hreuse : canReuseLastCompletion self.lastCompletion
        (ctxTriggerKind completionContext) (ctxTriggerCharacter completionContext)
        document position = false)
    (hgen : tsDoc.isInGenerated position = false) :
    (getCompletions env cfg utils document tsDoc self position completionContext
        cancelled).1 = none := by
  unfold getCompletions
  by_cases h1 : document.inStyleTag position = true
  · simp [h1]
  · simp only [Bool.not_eq_true] at h1
    cases h2 : tsDoc.filePath with
    | none => simp [h1, h2]
    | some fp =>
      by_cases h3 : triggerGateRejects completionContext = true
      · simp [h1, h2, h3]
      · simp only [Bool.not_eq_true] at h3
        simp [h1, h2, h3, hreuse, getCompletionsFresh, hgen]

/-- A snapshot whose generated region contains no position. -/
def c4Snap : Snapshot := { fixSnap with isInGenerated := fun _ => false }

/-- C4 counterexample: the cache-reuse check runs before the
generated-region check, so a request at a position outside the generated
region that hits the cache is served the cached (non-null) list. -/
theorem outsideGenerated_cacheHit_counterexample :
    c4Snap.isInGenerated { line := 0, character := 1 } = false ∧
    (getCompletions fixEnv fixCfg fixUtils fixDoc c4Snap
        { lastCompletion := some fixLC } { line := 0, character := 1 }
        (some { triggerKind := some triggerKindTriggerForIncompleteCompletions })
        false).1 = some fixList ∧
    (some fixList ≠ (none : Option CompletionList)) := by
  refine ⟨rfl, by decide, by simp⟩

theorem outsideGenerated_null_of_no_reuse_witness :
    (getCompletions fixEnv fixCfg fixUtils fixDoc c4Snap
        { lastCompletion := none } { line := 0, character := 1 } none false).1 =
      none :=
  outsideGenerated_null_of_no_reuse fixEnv fixCfg fixUtils fixDoc c4Snap
    { lastCompletion := none } { line := 0, character := 1 } none false
    (by decide) rfl

/- ------------------------------------------------------------------ -/
/- C2: the `:` trigger returns the metadata completions alone.         -/
/- ------------------------------------------------------------------ -/

/-- C2 (amended): for a request with trigger character `:` that reaches the
event/slot-let branch (not in a style tag, file path present, no cache
reuse, inside the generated region, not in text content, not cancelled),
`getCompletions` returns exactly the metadata-derived event and slot-let
completions, marked incomplete if and only if the document has a parser
error; the language-service query and the string-literal fallback are
never consulted (the result is invariant under replacing them), and when
component metadata is present and the cursor is not in an attribute value
the items are exactly one `on:`-prefixed item per declared event followed
by one `let:`-prefixed item per declared slot-let. -/
theorem colonTrigger_metadata_only (env : Env) (cfg : Config) (utils : Utils)
    (document : Document) (tsDoc : Snapshot) (self : State) (position : Position)
    (tk : Option Int) (fp : String)
    (hstyle : document.inStyleTag position = false)
    (hfp : tsDoc.filePath = some fp)
    (hreuse : canReuseLastCompletion self.lastCompletion tk (some ":") document
        position = false)
    (hgen : tsDoc.isInGenerated position = true)
    (htext : inTextContent (tsDoc.svelteNodeAt (document.offsetAt position))
        document.text (document.offsetAt position) = false) :
    (getCompletions env cfg utils document tsDoc self position
        (some { triggerKind := tk, triggerCharacter := some ":" }) false =
      (some (CompletionList.create
          (getEventAndSlotLetCompletions (env.getComponentAtPosition position)
            document (attributeContextAt env position)
            (document.wordRangeAt (document.offsetAt position)))
          tsDoc.parserError),
       { lastCompletion := none })) ∧
    (∀ f g,
      getCompletions
          { env with getCompletionsAtPosition := f, jsxPropFallback := g }
          cfg utils document tsDoc self position
          (some { triggerKind := tk, triggerCharacter := some ":" }) false =
        getCompletions env cfg utils document tsDoc self position
          (some { triggerKind := tk, triggerCharacter := some ":" }) false) ∧
    (∀ ci, env.getComponentAtPosition position = some ci →
      (match attributeContextAt env position with
       | some ac => ac.inValue
       | none => false) = false →
      getEventAndSlotLetCompletions (env.getComponentAtPosition position) document
          (attributeContextAt env position)
          (document.wordRangeAt (document.offsetAt position)) =
        ci.events.map (fun event => componentInfoToCompletionEntry event "on:" none
          document (document.wordRangeAt (document.offsetAt position))) ++
        ci.slotLets.map (fun slot => componentInfoToCompletionEntry slot "let:" none
          document (document.wordRangeAt (document.offsetAt position)))) := by
  have hco : (((some ":" : Option String)) == some "*") = false := by decide
  have hcolon : (((some ":" : Option String)) == some ":") = true := by decide
  have key : ∀ e : Env,
      e.getComponentAtPosition = env.getComponentAtPosition →
      e.getAttributeContextAtPosition = env.getAttributeContextAtPosition →
      getCompletions e cfg utils document tsDoc self position
          (some { triggerKind := tk, triggerCharacter := some ":" }) false =
        (some (CompletionList.create
            (getEventAndSlotLetCompletions (env.getComponentAtPosition position)
              document (attributeContextAt env position)
              (document.wordRangeAt (document.offsetAt position)))
            tsDoc.parserError),
         { lastCompletion := none }) := by
    intro e he1 he2
    have hgatec : triggerGateRejects
        (some { triggerKind := tk, triggerCharacter := some ":" }) = false := by
      simp [triggerGateRejects, ctxTriggerKind, ctxTriggerCharacter]
    have hctxk : ctxTriggerKind
        (some { triggerKind := tk, triggerCharacter := some ":" }) = tk := rfl
    have hctxc : ctxTriggerCharacter
        (some { triggerKind := tk, triggerCharacter := some ":" }) =
      some ":" := rfl
    simp only [getCompletions, hstyle, hfp, hgatec, hctxk, hctxc, hreuse,
      Bool.false_eq_true, if_false]
    simp [getCompletionsFresh, hgen, htext, hctxk, hctxc, attributeContextAt,
      he1, he2]
  refine ⟨key env rfl rfl, fun f g => ?_, ?_⟩
  · rw [key { env with getCompletionsAtPosition := f, jsxPropFallback := g } rfl rfl,
      key env rfl rfl]
  · intro ci hci hinval
    simp [getEventAndSlotLetCompletions, hci, hinval]

/-- Component metadata with two events for the C2 witness. -/
def c2Info : ComponentInfo :=
  { events := [{ name := "click", type := "MouseEvent" },
               { name := "change", type := "Event" }]
    slotLets := []
    props := [] }

/-- An environment in which the cursor is over a component. -/
def c2Env : Env :=
  { fixEnv with
    getComponentAtPosition := fun _ => some c2Info
    getAttributeContextAtPosition := fun _ => some { inValue := false } }

theorem colonTrigger_metadata_only_witness :
    getCompletions c2Env fixCfg fixUtils fixDoc fixSnap { lastCompletion := none }
        { line := 0, character := 0 }
        (some { triggerKind := some triggerKindTriggerCharacter,
                triggerCharacter := some ":" }) false =
      (some (CompletionList.create
          (getEventAndSlotLetCompletions
            (c2Env.getComponentAtPosition { line := 0, character := 0 }) fixDoc
            (attributeContextAt c2Env { line := 0, character := 0 })
            (fixDoc.wordRangeAt (fixDoc.offsetAt { line := 0, character := 0 })))
          fixSnap.parserError),
       { lastCompletion := none }) := by
  have h := colonTrigger_metadata_only c2Env fixCfg fixUtils fixDoc fixSnap
    { lastCompletion := none } { line := 0, character := 0 }
    (some triggerKindTriggerCharacter) "a.svelte" rfl rfl (by decide) rfl
    (by decide)
  exact h.1

/-- A document whose cursor offset lies inside a start tag, enabling the
delta < 4 branch of the reuse predicate for the `:` trigger. -/
def c2xDoc : Document := { fixDoc with inStartTag := fun _ => true }

/-- An engine-derived item cached by a previous non-colon computation. -/
def c2xItem : CompletionItem := { label := "engineItem" }

/-- The previously cached list: engine-derived and marked incomplete. -/
def c2xList : CompletionList := { isIncomplete := true, items := [c2xItem] }

/-- A cache entry holding that list, keyed to `c2xDoc` at `(0, 0)`. -/
def c2xLC : LastCompletion :=
  { key := "a.svelte", position := { line := 0, character := 0 },
    completionList := some c2xList }

/-- C2 counterexample: a request with trigger character `:` two columns
from the cached position, inside a start tag, satisfies the reuse
predicate's dedicated `:` branch (delta < 4), so `getCompletions` serves
the previously cached engine-derived list — not the metadata-derived
event/slot-let items (here empty, no component at the cursor), and marked
incomplete although the document has no parser error. -/
theorem colonTrigger_cacheHit_counterexample :
    canReuseLastCompletion (some c2xLC) (some triggerKindTriggerCharacter)
      (some ":") c2xDoc { line := 0, character := 2 } = true ∧
    (getCompletions fixEnv fixCfg fixUtils c2xDoc fixSnap
        { lastCompletion := some c2xLC } { line := 0, character := 2 }
        (some { triggerKind := some triggerKindTriggerCharacter,
                triggerCharacter := some ":" }) false).1 = some c2xList ∧
    getEventAndSlotLetCompletions
      (fixEnv.getComponentAtPosition { line := 0, character := 2 }) c2xDoc
      (attributeContextAt fixEnv { line := 0, character := 2 })
      (c2xDoc.wordRangeAt (c2xDoc.offsetAt { line := 0, character := 2 })) = [] ∧
    fixSnap.parserError = false ∧
    some c2xList ≠
      some (CompletionList.create [] fixSnap.parserError) := by
  refine ⟨by decide, by decide, rfl, rfl, by decide⟩

/- ------------------------------------------------------------------ -/
/- C5: the 500-entry defensive cap.                                    -/
/- ------------------------------------------------------------------ -/

/-- C5: when the engine returns more than 500 raw entries for a request
that reaches the cap checks, then (a) if the svelte node at the cursor is
a plain `Element` and the first entry's kind is not the member-variable
kind, `getCompletions` returns null, discarding the whole batch; and
(b) if the node is an `InlineComponent` and the two characters around the
cursor are one of `"  "`, `" >"`, `" /"`, `getCompletions` returns only
the already-computed event/slot metadata items plus the narrowed prop
completions, which are empty when the cursor is in an attribute value and
otherwise one completion per declared component prop; all raw engine
entries are discarded. -/
theorem overCap_branches_spec (env : Env) (cfg : Config) (utils : Utils)
    (document : Document) (tsDoc : Snapshot) (self : State) (position : Position)
    (completionContext : Option CompletionContext) (fp : String)
    (nd : SvelteNode) (cs : List CompletionEntry)
    (hstyle : document.inStyleTag position = false)
    (hfp : tsDoc.filePath = some fp)
    (hgate : triggerGateRejects completionContext = false)
    (hreuse : canReuseLastCompletion self.lastCompletion
        (ctxTriggerKind completionContext) (ctxTriggerCharacter completionContext)
        document position = false)
    (hgen : tsDoc.isInGenerated position = true)
    (hstar : (ctxTriggerCharacter completionContext == some "*") = false)
    (hnode : tsDoc.svelteNodeAt (document.offsetAt position) = some nd)
    (htext : inTextContent (some nd) document.text (document.offsetAt position) =
      false)
    (hcolon : (ctxTriggerCharacter completionContext == some ":") = false)
    (hengine : env.getCompletionsAtPosition
        (tsDoc.offsetAt (tsDoc.getGeneratedPosition position))
        (if isValidTriggerCharacter (ctxTriggerCharacter completionContext) then
          ctxTriggerCharacter completionContext
         else none) = some cs)
    (hlen : 500 < cs.length) :
    (nd.type = "Element" →
      ∀ c rest, cs = c :: rest → (c.kind == memberVariableElementKind) = false →
      (getCompletions env cfg utils document tsDoc self position completionContext
          false).1 = none) ∧
    (nd.type = "InlineComponent" →
      (["  ", " >", " /"].contains
        (jsSubstring document.text (document.offsetAt position - 1)
          (document.offsetAt position + 1))) = true →
      getCompletions env cfg utils document tsDoc self position completionContext
          false =
        (some (CompletionList.create
            (getEventAndSlotLetCompletions (env.getComponentAtPosition position)
              document (attributeContextAt env position)
              (document.wordRangeAt (document.offsetAt position)) ++
             narrowToProps (env.getComponentAtPosition position)
              (attributeContextAt env position) document
              (document.wordRangeAt (document.offsetAt position)))
            tsDoc.parserError),
         { lastCompletion := none })) ∧
    (∀ ac, attributeContextAt env position = some ac → ac.inValue = true →
      narrowToProps (env.getComponentAtPosition position)
        (attributeContextAt env position) document
        (document.wordRangeAt (document.offsetAt position)) = []) ∧
    (∀ ci, env.getComponentAtPosition position = some ci →
      (match attributeContextAt env position with
       | some ac => ac.inValue
       | none => false) = false →
      narrowToProps (env.getComponentAtPosition position)
        (attributeContextAt env position) document
        (document.wordRangeAt (document.offsetAt position)) =
        ci.props.map (fun entry => componentInfoToCompletionEntry entry ""
          (some completionItemKindField) document
          (document.wordRangeAt (document.offsetAt position)))) := by
  have hred : getCompletions env cfg utils document tsDoc self position
      completionContext false =
      getCompletionsFresh env cfg utils document tsDoc fp position
        completionContext false := by
    simp [getCompletions, hstyle, hfp, hgate, hreuse]
  have hne : cs.isEmpty = false := by
    cases cs with
    | nil => simp at hlen
    | cons c rest => rfl
  have hlenz : (cs.length == 0) = false := by
    simp only [beq_eq_false_iff_ne, ne_eq]
    omega
  have hlen500 : decide (cs.length > 500) = true := by
    simpa using hlen
  refine ⟨?_, ?_, ?_, ?_⟩
  · intro helem c rest hcs hckind
    rw [hred]
    subst hcs
    have hlen2 : 500 < rest.length + 1 := by simpa using hlen
    have hckind2 : ¬ (c.kind = "property") := by
      simpa [memberVariableElementKind] using hckind
    simp [getCompletionsFresh, hgen, hstar, hcolon, hnode, htext, hengine, hne,
      hlenz, helem, hlen2, hckind2, memberVariableElementKind]
  · intro hcomp hbound
    rw [hred]
    simp [getCompletionsFresh, hgen, hstar, hcolon, hnode, htext, hengine, hne,
      hlenz, hlen, hcomp, hbound, attributeContextAt]
    have hb2 : jsSubstring document.text (document.offsetAt position - 1)
        (document.offsetAt position + 1) = "  " ∨
        jsSubstring document.text (document.offsetAt position - 1)
          (document.offsetAt position + 1) = " >" ∨
        jsSubstring document.text (document.offsetAt position - 1)
          (document.offsetAt position + 1) = " /" := by
      simpa using hbound
    tauto
  · intro ac hac hval
    simp [narrowToProps, hac, hval]
  · intro ci hci hval
    simp [narrowToProps, hci, hval]

/-- A raw entry whose kind is not the member-variable kind. -/
def c5Entry : CompletionEntry := { name := "x", kind := "var" }

/-- A snapshot that reports a plain `Element` node at the cursor. -/
def c5Snap : Snapshot :=
  { fixSnap with svelteNodeAt := fun _ => some { type := "Element" } }

/-- An environment whose engine leaks 501 global entries. -/
def c5Env : Env :=
  { fixEnv with
    getCompletionsAtPosition := fun _ _ => some (List.replicate 501 c5Entry) }

theorem overCap_branches_spec_witness :
    (getCompletions c5Env fixCfg fixUtils fixDoc c5Snap { lastCompletion := none }
        { line := 0, character := 0 } none false).1 = none := by
  have h := overCap_branches_spec c5Env fixCfg fixUtils fixDoc c5Snap
    { lastCompletion := none } { line := 0, character := 0 } none "a.svelte"
    { type := "Element" } (List.replicate 501 c5Entry)
    rfl rfl (by decide) (by decide) rfl (by decide) rfl (by decide) (by decide)
    rfl (by rw [List.length_replicate]; omega)
  exact h.1 rfl c5Entry (List.replicate 500 c5Entry) rfl (by decide)

/- ------------------------------------------------------------------ -/
/- C9: empty results degrade, they do not throw.                       -/
/- ------------------------------------------------------------------ -/

/-- C9 (amended): when the engine query, the legacy JSX string-literal
fallback and the metadata generator all produce zero entries,
`getCompletions` returns a non-null empty completion list marked
incomplete if the document has a parser error, and null otherwise (the
embedding is a total function, so absence of results is never a thrown
fault). -/
theorem emptyResults_null_or_incomplete (env : Env) (cfg : Config)
    (utils : Utils) (document : Document) (tsDoc : Snapshot) (self : State)
    (position : Position) (completionContext : Option CompletionContext)
    (fp : String)
    (hstyle : document.inStyleTag position = false)
    (hfp : tsDoc.filePath = some fp)
    (hgate : triggerGateRejects completionContext = false)
    (hreuse : canReuseLastCompletion self.lastCompletion
        (ctxTriggerKind completionContext) (ctxTriggerCharacter completionContext)
        document position = false)
    (hgen : tsDoc.isInGenerated position = true)
    (hstar : (ctxTriggerCharacter completionContext == some "*") = false)
    (htext : inTextContent (tsDoc.svelteNodeAt (document.offsetAt position))
        document.text (document.offsetAt position) = false)
    (hcolon : (ctxTriggerCharacter completionContext == some ":") = false)
    (hengine : (env.getCompletionsAtPosition
        (tsDoc.offsetAt (tsDoc.getGeneratedPosition position))
        (if isValidTriggerCharacter (ctxTriggerCharacter completionContext) then
          ctxTriggerCharacter completionContext
         else none)).getD [] = [])
    (hfallback : (jsxTransformationPropStringLiteralCompletion env cfg
        (env.getComponentAtPosition position)
        (tsDoc.offsetAt (tsDoc.getGeneratedPosition position))).getD [] = [])
    (hmeta : getEventAndSlotLetCompletions (env.getComponentAtPosition position)
        document (attributeContextAt env position)
        (document.wordRangeAt (document.offsetAt position)) = []) :
    getCompletions env cfg utils document tsDoc self position completionContext
        false =
      ((if tsDoc.parserError then some (CompletionList.create [] true) else none),
       { lastCompletion := none }) := by
  have hred : getCompletions env cfg utils document tsDoc self position
      completionContext false =
      getCompletionsFresh env cfg utils document tsDoc fp position
        completionContext false := by
    simp [getCompletions, hstyle, hfp, hgate, hreuse]
  rw [hred]
  simp [getCompletionsFresh, hgen, hstar, hcolon, htext, hengine, hfallback,
    hmeta]

/-- A raw entry produced only by the string-literal fallback. -/
def c9Entry : CompletionEntry := { name := "foo", kind := "var", sortText := "s" }

/-- Component metadata with no events and no slot-lets. -/
def c9Info : ComponentInfo :=
  { events := [], slotLets := [], props := [{ name := "title", type := "string" }] }

/-- An environment where the engine returns zero entries but the JSX
string-literal fallback synthesizes one. -/
def c9Env : Env :=
  { fixEnv with
    getCompletionsAtPosition := fun _ _ => some []
    getComponentAtPosition := fun _ => some c9Info
    getAttributeContextAtPosition := fun _ => some { inValue := false }
    jsxPropFallback := fun _ _ => some [c9Entry] }

/-- Configuration with the legacy transformation active. -/
def c9Cfg : Config := { useNewTransformation := false, defaultScriptLanguage := "none" }

/-- C9 counterexample: the engine query and the metadata generator both
produce zero entries and the document has no parser error, yet
`getCompletions` does not return null, because the JSX string-literal
fallback (which the claim does not account for) supplies an entry. -/
theorem emptyResults_fallback_counterexample :
    c9Env.getCompletionsAtPosition 0 none = some [] ∧
    getEventAndSlotLetCompletions
      (c9Env.getComponentAtPosition { line := 0, character := 0 }) fixDoc
      (attributeContextAt c9Env { line := 0, character := 0 })
      (fixDoc.wordRangeAt 0) = [] ∧
    fixSnap.parserError = false ∧
    (getCompletions c9Env c9Cfg fixUtils fixDoc fixSnap { lastCompletion := none }
        { line := 0, character := 0 } none false).1 ≠ none := by
  refine ⟨rfl, rfl, rfl, ?_⟩
  decide

theorem emptyResults_null_or_incomplete_witness :
    getCompletions fixEnv fixCfg fixUtils fixDoc fixSnap { lastCompletion := none }
        { line := 0, character := 0 } none false =
      ((if fixSnap.parserError then some (CompletionList.create [] true) else none),
       { lastCompletion := none }) :=
  emptyResults_null_or_incomplete fixEnv fixCfg fixUtils fixDoc fixSnap
    { lastCompletion := none } { line := 0, character := 0 } none "a.svelte"
    rfl rfl (by decide) (by decide) rfl (by decide) (by decide) (by decide)
    rfl rfl rfl

/- ------------------------------------------------------------------ -/
/- C6: de-duplication of compiled-component placeholder names.         -/
/- ------------------------------------------------------------------ -/

/-- C6 (amended): for a raw entry whose name carries the
`__SvelteComponent_` placeholder suffix, if the label computed for it by
`getCompletionLabelAndInsert` (the rewritten name, with the kind modifiers
appended for script-element entries whose rewritten name does not already
end with them) is present in the set of names that the document's import
statements bring in, `toCompletionItem` returns null. -/
theorem toCompletionItem_label_dedup (utils : Utils) (snapshot : Snapshot)
    (comp : CompletionEntry) (uri : String) (position : Position)
    (existingImports : List String) (r : LabelAndInsert)
    (hsuffix : isSvelteComponentImport comp.name = true)
    (hr : getCompletionLabelAndInsert utils snapshot comp = some r)
    (hmem : existingImports.contains r.label = true) :
    toCompletionItem utils snapshot comp uri position existingImports = none := by
  have hsv : r.isSvelteComp = true := by
    unfold getCompletionLabelAndInsert at hr
    simp only [hsuffix, Bool.true_and, if_true, ite_true] at hr
    split at hr
    · exact Option.noConfusion hr
    · split at hr
      · simp only [Option.some.injEq] at hr
        subst hr
        rfl
      · split at hr
        · simp only [Option.some.injEq] at hr
          subst hr
          rfl
        · simp only [Option.some.injEq] at hr
          subst hr
          rfl
  unfold toCompletionItem
  rw [hr]
  simp [hsv, hmem]
  simpa using hmem

/-- A script-element svelte-component entry whose rewritten name `Foo` is
already among the existing imports, but whose computed label is `Foo.ts`. -/
def c6Entry : CompletionEntry :=
  { name := "Foo__SvelteComponent_", kind := "script", kindModifiers := some ".ts",
    sortText := "s" }

/-- C6 counterexample: an entry with the placeholder suffix whose rewritten
user-facing name `Foo` is already among the imported names, yet
`toCompletionItem` does not return null: the entry is a script-element
entry with kind modifiers, so the label checked against the import set is
`Foo.ts`, not `Foo`. -/
theorem svelteComp_import_dedup_counterexample :
    isSvelteComponentImport c6Entry.name = true ∧
    fixUtils.changeSvelteComponentName c6Entry.name = "Foo" ∧
    (["Foo"] : List String).contains "Foo" = true ∧
    toCompletionItem fixUtils fixSnap c6Entry "uri" { line := 0, character := 0 }
      ["Foo"] ≠ none := by
  refine ⟨by decide, by decide, by decide, by decide⟩

/-- An ordinary svelte-component entry for the dedup witness. -/
def c6Entry2 : CompletionEntry :=
  { name := "Bar__SvelteComponent_", kind := "var", sortText := "s" }

theorem toCompletionItem_label_dedup_witness :
    toCompletionItem fixUtils fixSnap c6Entry2 "uri" { line := 0, character := 0 }
      ["Bar"] = none :=
  toCompletionItem_label_dedup fixUtils fixSnap c6Entry2 "uri"
    { line := 0, character := 0 } ["Bar"]
    { label := "Bar", insertText := none, isSvelteComp := true,
      replacementSpan := none }
    (by decide) (by decide) (by decide)

/- ------------------------------------------------------------------ -/
/- C8: resolving into a document without a script region.              -/
/- ------------------------------------------------------------------ -/

/-- C8: when the target snapshot has neither a script region nor a
module-script region, `codeActionChangeToTextEdit` returns a single text
edit at the zero-length range at document position `(0, 0)` whose new text
is a complete script-region wrapper: `<script`, the configured default
script-region language attribute (or none when configured `none`), `>`,
a newline, the (rewritten) change text, `</script>` and a newline; the
change's own span is ignored entirely (the result is invariant under
replacing it). -/
theorem codeActionChange_noScript_wrapper (cfg : Config) (utils : Utils)
    (newLine : String) (doc : Document) (snapshot : Snapshot)
    (change : TextChange) (isImport : Bool) (originalTriggerPosition : Position)
    (h1 : snapshot.scriptInfo = none) (h2 : snapshot.moduleScriptInfo = none) :
    (codeActionChangeToTextEdit cfg utils newLine doc snapshot change isImport
        originalTriggerPosition =
      { range := beginOfDocumentRange
        newText :=
          "<script" ++
          (if cfg.defaultScriptLanguage == "none" then ""
           else " lang=\"" ++ cfg.defaultScriptLanguage ++ "\"") ++ ">" ++ newLine ++
          changeComponentImport utils.changeSvelteComponentName change.newText
            (doc.isInScriptAt originalTriggerPosition) ++
          "</script>" ++ newLine }) ∧
    beginOfDocumentRange =
      { start := { line := 0, character := 0 }, stop := { line := 0, character := 0 } } ∧
    (∀ span : TextSpan,
      codeActionChangeToTextEdit cfg utils newLine doc snapshot
          { change with span := span } isImport originalTriggerPosition =
        codeActionChangeToTextEdit cfg utils newLine doc snapshot change isImport
          originalTriggerPosition) := by
  refine ⟨?_, rfl, ?_⟩
  · simp [codeActionChangeToTextEdit, h1, h2]
  · intro span
    simp [codeActionChangeToTextEdit, h1, h2]

/-- Configuration for the C8 witness: default script language `ts`. -/
def c8Cfg : Config := { useNewTransformation := true, defaultScriptLanguage := "ts" }

/-- The code-action change of the C8 witness. -/
def c8Change : TextChange :=
  { span := { start := 3, length := 5 }, newText := "importFoo" }

theorem codeActionChange_noScript_wrapper_witness :
    codeActionChangeToTextEdit c8Cfg fixUtils "\n" fixDoc fixSnap c8Change true
        { line := 0, character := 0 } =
      { range := beginOfDocumentRange
        newText :=
          "<script" ++
          (if c8Cfg.defaultScriptLanguage == "none" then ""
           else " lang=\"" ++ c8Cfg.defaultScriptLanguage ++ "\"") ++ ">" ++ "\n" ++
          changeComponentImport fixUtils.changeSvelteComponentName c8Change.newText
            (fixDoc.isInScriptAt { line := 0, character := 0 }) ++
          "</script>" ++ "\n" } :=
  (codeActionChange_noScript_wrapper c8Cfg fixUtils "\n" fixDoc fixSnap c8Change
    true { line := 0, character := 0 } rfl rfl).1

end SvelteLS
